import Mathlib

/-!
Verification development for the resource crate (src/src/lib.rs).

The crate offers a Resource handle in two mutually exclusive build modes:
a dynamic (file-backed) mode keeping the data, the source path and the
last observed modification time, and a static (embedded) mode keeping
only a reference to build-time data.

Shallow embedding conventions:
 - The filesystem is modelled by two read-only query functions: a content
   reader rd (ReadFromFile::read_from_file for the content type; none
   models a failed read, which in Rust prints a message naming the path
   and panics) and an mtime query mt (fs::metadata(..).modified().ok()).
 - A failed read aborts the operation; the embedding returns
   Except.error carrying the offending path, since the Rust failure
   detail names that path.
 - Each operation also returns the list of filesystem events it performs
   in order (Event.read p for a content read of p, Event.stat p for a
   modification-time query of p), so claims about how much I/O happens
   are statable.
 - SystemTime is modelled as Nat; SystemTime.UNIX_EPOCH is unixEpoch.
-/

namespace ResourceLib

abbrev FilePath := String

abbrev Timestamp := Nat

/-- Model of SystemTime.UNIX_EPOCH, the fallback fingerprint used by
the dynamic module when the modification-time query fails. -/
def unixEpoch : Timestamp := 0

/-- A filesystem access event: a content read or a metadata
(modification-time) query of a path. -/
inductive Event where
  | read (p : FilePath)
  | stat (p : FilePath)
deriving DecidableEq, Repr

/-- Dynamic-mode Resource (lib.rs line 90): the owned data (field .0),
the PathBuf (field .1) and the SystemTime fingerprint (field .2). -/
structure Resource (A : Type) where
  data : A
  path : FilePath
  modified : Timestamp
deriving DecidableEq, Repr

/-- Resource::modified (lib.rs lines 110-114): queries the filesystem
modification time of a path, returning none on any failure, and
performs one stat event. -/
def modifiedQuery (mt : FilePath → Option Timestamp) (p : FilePath) :
    Option Timestamp × List Event :=
  (mt p, [Event.stat p])

/-- Resource::_from_file (lib.rs lines 102-108): reads the file content
(panicking, i.e. erroring with the offending path, on failure), then
queries the modification time, defaulting to the epoch sentinel when
that query fails. -/
def Resource.from_file (rd : FilePath → Option A)
    (mt : FilePath → Option Timestamp) (path : FilePath) :
    Except FilePath (Resource A) × List Event :=
  match rd path with
  | none => (Except.error path, [Event.read path])
  | some data =>
    let m := modifiedQuery mt path
    (Except.ok ⟨data, path, m.1.getD unixEpoch⟩, Event.read path :: m.2)

/-- Resource::changed (lib.rs lines 119-122): one modification-time
query; true iff the query succeeds and its value differs from the
stored fingerprint. -/
def Resource.changed (mt : FilePath → Option Timestamp) (r : Resource A) :
    Bool × List Event :=
  let m := modifiedQuery mt r.path
  (m.1.isSome && (m.1 != some r.modified), m.2)

/-- Resource::reload (lib.rs lines 127-132): unconditionally re-reads
the file (erroring with the offending path on failure), re-queries the
modification time with the epoch fallback, and replaces data and
fingerprint together; the path is kept. -/
def Resource.reload (rd : FilePath → Option A)
    (mt : FilePath → Option Timestamp) (r : Resource A) :
    Except FilePath (Resource A) × List Event :=
  match rd r.path with
  | none => (Except.error r.path, [Event.read r.path])
  | some data =>
    let m := modifiedQuery mt r.path
    (Except.ok ⟨data, r.path, m.1.getD unixEpoch⟩, Event.read r.path :: m.2)

/-- Resource::reload_if_changed (lib.rs lines 138-144): evaluates
changed once; if true, reloads and returns the captured bool, otherwise
returns false without touching the handle. -/
def Resource.reload_if_changed (rd : FilePath → Option A)
    (mt : FilePath → Option Timestamp) (r : Resource A) :
    Except FilePath (Resource A × Bool) × List Event :=
  let c := Resource.changed mt r
  if c.1 then
    let res := Resource.reload rd mt r
    (Except.map (fun r2 => (r2, true)) res.1, c.2 ++ res.2)
  else
    (Except.ok (r, false), c.2)

/-- AsRef for the dynamic Resource (lib.rs lines 147-155): borrows the
owned buffer; modelled as returning the data itself. -/
def Resource.as_ref (r : Resource A) : A :=
  r.data

namespace Static

/-- Static-mode Resource (lib.rs line 202): only a reference to static
data. -/
structure Resource (A : Type) where
  data : A
deriving DecidableEq, Repr

/-- Resource::_from_data (lib.rs lines 214-216). -/
def Resource.from_data (data : A) : Resource A :=
  ⟨data⟩

/-- Static Resource::changed (lib.rs lines 218-220): always false, no
filesystem access. -/
def Resource.changed (_r : Resource A) : Bool :=
  false

/-- Static Resource::reload_if_changed (lib.rs lines 222-224): always
false, handle untouched, no filesystem access. -/
def Resource.reload_if_changed (r : Resource A) : Resource A × Bool :=
  (r, false)

/-- Static Resource::reload (lib.rs line 226): a no-op. -/
def Resource.reload (r : Resource A) : Resource A :=
  r

/-- AsRef for the static Resource (lib.rs lines 229-237). -/
def Resource.as_ref (r : Resource A) : A :=
  r.data

end Static

/-- Batch load without transform: the array and tuple rules of the
resource and resource_str macros (lib.rs lines 333-339 and 449-455)
expand a bracketed list of filenames element-wise, in order, into
independent single-file loads; a panic in one element aborts the whole
expression before later elements are evaluated. -/
def loadBatch (rd : FilePath → Option A)
    (mt : FilePath → Option Timestamp) :
    List FilePath → Except FilePath (List (Resource A)) × List Event
  | [] => (Except.ok [], [])
  | p :: ps =>
    let hd := Resource.from_file rd mt p
    match hd.1 with
    | Except.error e => (Except.error e, hd.2)
    | Except.ok r =>
      let tl := loadBatch rd mt ps
      match tl.1 with
      | Except.error e => (Except.error e, hd.2 ++ tl.2)
      | Except.ok rs => (Except.ok (r :: rs), hd.2 ++ tl.2)

/-- Batch load with transform: the transform rules of the macros
(lib.rs lines 325-345 and 441-461) expand element-wise to the transform
applied to the AsRef view of each freshly loaded resource, in order. -/
def loadBatchWith (rd : FilePath → Option A)
    (mt : FilePath → Option Timestamp) (f : A → B) :
    List FilePath → Except FilePath (List B) × List Event
  | [] => (Except.ok [], [])
  | p :: ps =>
    let hd := Resource.from_file rd mt p
    match hd.1 with
    | Except.error e => (Except.error e, hd.2)
    | Except.ok r =>
      let tl := loadBatchWith rd mt f ps
      match tl.1 with
      | Except.error e => (Except.error e, hd.2 ++ tl.2)
      | Except.ok bs => (Except.ok (f r.as_ref :: bs), hd.2 ++ tl.2)

/-- C2: for every file-backed handle, changed (is_stale) returns true
iff the modification-time query for the stored source path succeeds and
yields a value different from the stored fingerprint; whenever the
metadata query fails, changed returns false. -/
theorem changed_iff_query_succeeds_and_differs
    (mt : FilePath → Option Timestamp) (r : Resource A) :
    ((Resource.changed mt r).1 = true ↔
      ∃ t, mt r.path = some t ∧ t ≠ r.modified) ∧
    (mt r.path = none → (Resource.changed mt r).1 = false) := by
  unfold Resource.changed modifiedQuery
  cases h : mt r.path with
  | none => simp [h]
  | some t => simp [h, bne_iff_ne]

/-- Witness for C2 at a concrete input: a handle whose metadata query
fails reports not changed. -/
theorem changed_iff_query_succeeds_and_differs_witness :
    (fun _ : FilePath => (none : Option Timestamp)) "a" = none ∧
    (Resource.changed (fun _ : FilePath => (none : Option Timestamp))
      (⟨37, "a", 5⟩ : Resource Nat)).1 = false :=
  ⟨rfl, (changed_iff_query_succeeds_and_differs
    (fun _ => none) (⟨37, "a", 5⟩ : Resource Nat)).2 rfl⟩

/-- C4: for every embedded (static-mode) resource handle, changed
always returns false, reload is a no-op that never changes the value
returned by as_ref, and reload_if_changed always returns false with the
handle untouched; none of them touches the filesystem. -/
theorem static_handle_inert (r : Static.Resource A) :
    Static.Resource.changed r = false ∧
    Static.Resource.reload r = r ∧
    (Static.Resource.reload r).as_ref = r.as_ref ∧
    Static.Resource.reload_if_changed r = (r, false) :=
  ⟨rfl, rfl, rfl, rfl⟩

/-- C5: for every file-backed handle, reload always performs a file
read (it never consults changed first), and on a successful read
replaces content and fingerprint together as a unit while keeping the
path; on a failed read it fails fatally, producing no updated handle at
all. -/
theorem reload_unconditional_and_atomic (rd : FilePath → Option A)
    (mt : FilePath → Option Timestamp) (r : Resource A) :
    Event.read r.path ∈ (Resource.reload rd mt r).2 ∧
    (∀ d, rd r.path = some d →
      (Resource.reload rd mt r).1 =
        Except.ok ⟨d, r.path, (mt r.path).getD unixEpoch⟩) ∧
    (rd r.path = none →
      (Resource.reload rd mt r).1 = Except.error r.path) := by
  unfold Resource.reload modifiedQuery
  cases h : rd r.path with
  | none => simp [h]
  | some d => simp [h]

/-- Witness for C5 at a concrete input: a successful read replaces data
and fingerprint together. -/
theorem reload_unconditional_and_atomic_witness :
    (fun _ : FilePath => some (7 : Nat)) "a" = some 7 ∧
    (Resource.reload (fun _ : FilePath => some (7 : Nat))
        (fun _ : FilePath => some (9 : Timestamp))
        (⟨3, "a", 4⟩ : Resource Nat)).1 =
      Except.ok ⟨7, "a",
        ((fun _ : FilePath => some (9 : Timestamp)) "a").getD unixEpoch⟩ :=
  ⟨rfl, (reload_unconditional_and_atomic (fun _ => some 7)
    (fun _ => some 9) (⟨3, "a", 4⟩ : Resource Nat)).2.1 7 rfl⟩

/-- C9: in file-backed mode, loading (initially via from_file or again
via reload) a path whose read fails is fatal and immediate: the result
is an error carrying the offending path, no resource value is produced,
and no further filesystem event happens after the failing read. -/
theorem load_failure_fatal_with_path (rd : FilePath → Option A)
    (mt : FilePath → Option Timestamp) (p : FilePath) (r : Resource A) :
    (rd p = none →
      Resource.from_file rd mt p = (Except.error p, [Event.read p])) ∧
    (rd r.path = none →
      Resource.reload rd mt r =
        (Except.error r.path, [Event.read r.path])) := by
  constructor
  · intro h
    unfold Resource.from_file
    simp [h]
  · intro h
    unfold Resource.reload
    simp [h]

/-- Witness for C9 at a concrete input: loading a missing path fails
with that path in the error. -/
theorem load_failure_fatal_with_path_witness :
    (fun _ : FilePath => (none : Option Nat)) "missing.txt" = none ∧
    Resource.from_file (fun _ : FilePath => (none : Option Nat))
        (fun _ : FilePath => some (1 : Timestamp)) "missing.txt" =
      (Except.error "missing.txt", [Event.read "missing.txt"]) :=
  ⟨rfl, (load_failure_fatal_with_path (fun _ => none) (fun _ => some 1)
    "missing.txt" (⟨0, "x", 0⟩ : Resource Nat)).1 rfl⟩

/-- C6: mode parity: if the on-disk content read for a path equals the
build-time embedded content, then the AsRef view of the file-backed
handle equals the AsRef view of the embedded handle. -/
theorem mode_parity (rd : FilePath → Option A)
    (mt : FilePath → Option Timestamp) (p : FilePath) (c : A)
    (r : Resource A) (hread : rd p = some c)
    (hload : (Resource.from_file rd mt p).1 = Except.ok r) :
    Resource.as_ref r = Static.Resource.as_ref (Static.Resource.from_data c) := by
  unfold Resource.from_file at hload
  rw [hread] at hload
  simp at hload
  rw [← hload]
  rfl

/-- Witness for C6 at a concrete input. -/
theorem mode_parity_witness :
    (fun _ : FilePath => some (42 : Nat)) "a" = some 42 ∧
    (Resource.from_file (fun _ : FilePath => some (42 : Nat))
        (fun _ : FilePath => some (3 : Timestamp)) "a").1 =
      Except.ok (⟨42, "a", 3⟩ : Resource Nat) ∧
    Resource.as_ref (⟨42, "a", 3⟩ : Resource Nat) =
      Static.Resource.as_ref (Static.Resource.from_data 42) :=
  ⟨rfl, rfl, mode_parity (fun _ => some 42) (fun _ => some 3) "a" 42
    (⟨42, "a", 3⟩ : Resource Nat) rfl rfl⟩

/-- C1: reload_if_changed evaluates the staleness check exactly once
(a single stat event precedes anything else); when that single check is
true it performs exactly one reload and returns true, and when it is
false it performs no file read at all, leaves the handle (content,
path, fingerprint) untouched and returns false. -/
theorem reload_if_changed_check_once_act_once (rd : FilePath → Option A)
    (mt : FilePath → Option Timestamp) (r : Resource A) :
    ((Resource.changed mt r).1 = true →
      (Resource.reload_if_changed rd mt r).1 =
        Except.map (fun r2 => (r2, true)) (Resource.reload rd mt r).1 ∧
      (Resource.reload_if_changed rd mt r).2 =
        Event.stat r.path :: (Resource.reload rd mt r).2) ∧
    ((Resource.changed mt r).1 = false →
      Resource.reload_if_changed rd mt r =
        (Except.ok (r, false), [Event.stat r.path])) := by
  constructor
  · intro h
    simp only [Resource.reload_if_changed, h, if_true]
    exact ⟨trivial, rfl⟩
  · intro h
    simp only [Resource.reload_if_changed, h, Bool.false_eq_true, if_false]
    rfl

/-- Witness for C1 at a concrete input where the staleness check is
true: the result and trace are those of a single reload after the
single check. -/
theorem reload_if_changed_check_once_act_once_witness :
    (Resource.changed (fun _ : FilePath => some (6 : Timestamp))
      (⟨0, "a", 5⟩ : Resource Nat)).1 = true ∧
    ((Resource.reload_if_changed (fun _ : FilePath => some (1 : Nat))
        (fun _ : FilePath => some (6 : Timestamp)) (⟨0, "a", 5⟩ : Resource Nat)).1 =
      Except.map (fun r2 => (r2, true))
        (Resource.reload (fun _ : FilePath => some (1 : Nat))
          (fun _ : FilePath => some (6 : Timestamp)) (⟨0, "a", 5⟩ : Resource Nat)).1 ∧
     (Resource.reload_if_changed (fun _ : FilePath => some (1 : Nat))
        (fun _ : FilePath => some (6 : Timestamp)) (⟨0, "a", 5⟩ : Resource Nat)).2 =
      Event.stat "a" ::
        (Resource.reload (fun _ : FilePath => some (1 : Nat))
          (fun _ : FilePath => some (6 : Timestamp)) (⟨0, "a", 5⟩ : Resource Nat)).2) :=
  ⟨rfl, (reload_if_changed_check_once_act_once _ _ _).1 rfl⟩

/-- C3 counterexample: the sentinel epoch fingerprint is not unequal to
every timestamp a successful query can return. A handle loaded while
the metadata query failed carries the epoch fingerprint; if a later
successful query returns exactly the epoch (a file whose modification
time is the epoch), changed reports false, refuting the claim that the
first successful check is always stale. -/
theorem sentinel_not_always_stale_counterexample :
    (Resource.from_file (fun _ : FilePath => some (0 : Nat))
        (fun _ : FilePath => (none : Option Timestamp)) "a").1 =
      Except.ok (⟨0, "a", unixEpoch⟩ : Resource Nat) ∧
    (fun _ : FilePath => some unixEpoch) "a" = some unixEpoch ∧
    (Resource.changed (fun _ : FilePath => some unixEpoch)
      (⟨0, "a", unixEpoch⟩ : Resource Nat)).1 = false :=
  ⟨rfl, rfl, rfl⟩

/-- C3 amended: when the content read succeeds but the modification
time query fails, the load still succeeds and stores the sentinel epoch
fingerprint, and any subsequent successful metadata query returning a
timestamp different from the epoch makes changed report true, even if
the content never changed. -/
theorem epoch_fallback_then_stale_on_distinct_success
    (rd : FilePath → Option A) (mt : FilePath → Option Timestamp)
    (p : FilePath) (d : A) (hread : rd p = some d) (hmt : mt p = none) :
    (Resource.from_file rd mt p).1 = Except.ok ⟨d, p, unixEpoch⟩ ∧
    ∀ (mt2 : FilePath → Option Timestamp) (t : Timestamp),
      mt2 p = some t → t ≠ unixEpoch →
      (Resource.changed mt2 (⟨d, p, unixEpoch⟩ : Resource A)).1 = true := by
  constructor
  · unfold Resource.from_file modifiedQuery
    simp [hread, hmt]
  · intro mt2 t h2 hne
    unfold Resource.changed modifiedQuery
    simp [h2, bne_iff_ne]
    exact hne

/-- Witness for the amended C3 at a concrete input: failed metadata
query at load, then a successful query returning 7 reports stale. -/
theorem epoch_fallback_then_stale_witness :
    (fun _ : FilePath => some (0 : Nat)) "a" = some 0 ∧
    (fun _ : FilePath => (none : Option Timestamp)) "a" = none ∧
    (Resource.from_file (fun _ : FilePath => some (0 : Nat))
        (fun _ : FilePath => (none : Option Timestamp)) "a").1 =
      Except.ok (⟨0, "a", unixEpoch⟩ : Resource Nat) ∧
    (fun _ : FilePath => some (7 : Timestamp)) "a" = some 7 ∧
    (7 : Timestamp) ≠ unixEpoch ∧
    (Resource.changed (fun _ : FilePath => some (7 : Timestamp))
      (⟨0, "a", unixEpoch⟩ : Resource Nat)).1 = true :=
  ⟨rfl, rfl,
    (epoch_fallback_then_stale_on_distinct_success
      (fun _ => some 0) (fun _ => none) "a" 0 rfl rfl).1,
    rfl, by decide,
    (epoch_fallback_then_stale_on_distinct_success
      (fun _ => some 0) (fun _ => none) "a" 0 rfl rfl).2
      (fun _ => some 7) 7 rfl (by decide)⟩

/-- C10: changed is a read-only query: it performs exactly one metadata
query and no content read, and its result depends only on the stored
path's current modification time and the stored fingerprint (not on the
content), so two consecutive calls with no intervening filesystem
change return the same result. Mutation-freedom of the handle itself is
forced by the embedding of the borrowing receiver: changed returns no
updated handle because the Rust method takes the handle immutably and
the struct has no interior mutability. -/
theorem changed_is_readonly_query (mt mt2 : FilePath → Option Timestamp)
    (r r2 : Resource A) :
    (Resource.changed mt r).2 = [Event.stat r.path] ∧
    (∀ p, Event.read p ∉ (Resource.changed mt r).2) ∧
    (mt2 r2.path = mt r.path → r2.modified = r.modified →
      (Resource.changed mt2 r2).1 = (Resource.changed mt r).1) := by
  refine ⟨rfl, ?_, ?_⟩
  · intro p
    simp [Resource.changed, modifiedQuery]
  · intro h1 h2
    simp [Resource.changed, modifiedQuery, h1, h2]

/-- Witness for C10 at a concrete input: two handles for the same path
and fingerprint but different content agree on changed. -/
theorem changed_is_readonly_query_witness :
    (fun _ : FilePath => some (3 : Timestamp)) "a" =
      (fun _ : FilePath => some (3 : Timestamp)) "a" ∧
    (⟨99, "a", 5⟩ : Resource Nat).modified =
      (⟨0, "a", 5⟩ : Resource Nat).modified ∧
    (Resource.changed (fun _ : FilePath => some (3 : Timestamp))
        (⟨99, "a", 5⟩ : Resource Nat)).1 =
      (Resource.changed (fun _ : FilePath => some (3 : Timestamp))
        (⟨0, "a", 5⟩ : Resource Nat)).1 :=
  ⟨rfl, rfl, (changed_is_readonly_query _ _ _ _).2.2 rfl rfl⟩

/-- C7: order preservation and no deduplication: a successful batch
load yields exactly one handle per requested path, and the handle at
every position i is the result of loading the i-th path individually;
repeated paths yield one handle per occurrence, with no reordering. -/
theorem batch_order_no_dedup (rd : FilePath → Option A)
    (mt : FilePath → Option Timestamp) (paths : List FilePath)
    (rs : List (Resource A))
    (h : (loadBatch rd mt paths).1 = Except.ok rs) :
    rs.length = paths.length ∧
    ∀ i : Nat, rs[i]? =
      (paths[i]?).bind fun p => ((Resource.from_file rd mt p).1).toOption := by
  induction paths generalizing rs with
  | nil =>
    simp [loadBatch] at h
    subst h
    simp
  | cons p ps ih =>
    simp only [loadBatch] at h
    cases hf : (Resource.from_file rd mt p).1 with
    | error e => rw [hf] at h; simp at h
    | ok r0 =>
      rw [hf] at h
      cases hb : (loadBatch rd mt ps).1 with
      | error e => rw [hb] at h; simp at h
      | ok rs2 =>
        rw [hb] at h
        simp at h
        subst h
        obtain ⟨hlen, hidx⟩ := ih rs2 hb
        constructor
        · simp [hlen]
        · intro i
          cases i with
          | zero => simp [hf, Except.toOption]
          | succ j => simpa using hidx j

/-- Witness for C7 at a concrete input containing a repeated path: the
batch has one handle per occurrence and position 2 equals the
individual load of the repeated path. -/
theorem batch_order_no_dedup_witness :
    (loadBatch (fun _ : FilePath => some (0 : Nat))
        (fun _ : FilePath => some (1 : Timestamp)) ["a", "b", "a"]).1 =
      Except.ok [⟨0, "a", 1⟩, ⟨0, "b", 1⟩, ⟨0, "a", 1⟩] ∧
    ([(⟨0, "a", 1⟩ : Resource Nat), ⟨0, "b", 1⟩, ⟨0, "a", 1⟩].length =
      (["a", "b", "a"] : List FilePath).length) ∧
    ([(⟨0, "a", 1⟩ : Resource Nat), ⟨0, "b", 1⟩, ⟨0, "a", 1⟩][2]? =
      ((["a", "b", "a"] : List FilePath)[2]?).bind fun p =>
        ((Resource.from_file (fun _ : FilePath => some (0 : Nat))
          (fun _ : FilePath => some (1 : Timestamp)) p).1).toOption) :=
  ⟨rfl,
    (batch_order_no_dedup (fun _ => some 0) (fun _ => some 1)
      ["a", "b", "a"] _ rfl).1,
    (batch_order_no_dedup (fun _ => some 0) (fun _ => some 1)
      ["a", "b", "a"] _ rfl).2 2⟩

/-- C8: transform distributes over batch loading: the batch load with
transform f equals the batch load without transform followed by mapping
f over each handle's borrowed content view, position by position. -/
theorem transform_commutes_with_batch (rd : FilePath → Option A)
    (mt : FilePath → Option Timestamp) (f : A → B) (paths : List FilePath) :
    (loadBatchWith rd mt f paths).1 =
      Except.map (List.map fun r => f (Resource.as_ref r))
        (loadBatch rd mt paths).1 := by
  induction paths with
  | nil => rfl
  | cons p ps ih =>
    simp only [loadBatchWith, loadBatch]
    cases hf : (Resource.from_file rd mt p).1 with
    | error e => rfl
    | ok r0 =>
      cases hb : (loadBatch rd mt ps).1 with
      | error e => rw [ih, hb]; rfl
      | ok rs2 => rw [ih, hb]; rfl

end ResourceLib
